import Mathlib

/-!
Shallow embedding of the ImageController of `fhir-image-db` (a Sails.js
controller with three actions: `upload`, `delete`, `purge`) together with
proofs about its behaviour.

Modelling conventions:
- Byte buffers are abstracted by their length (`Nat`); the image decoder
  (the `sharp` library) is abstracted by its observable outcome
  (`DecodeResult`), since the claims quantify over all decode outcomes.
- The local asset directory is a list of filenames (`List String`).
- HTTP calls to the FHIR registry are abstracted by oracle values describing
  the outcome of each call; `axios` default semantics are embedded: a
  received response resolves iff its status is in the range 200..299,
  anything else (or a network failure) rejects and lands in the `catch`.
- Each controller action is a pure function from its request plus the
  oracles to an outcome record carrying the HTTP result and the observable
  effects (files written, registry calls made, record submitted).
-/

namespace ImageDB

/-! ## Path helpers (model of Node `path.extname`, `path.parse`, `path.basename`) -/

/-- Characters after the last path separator, i.e. the basename of a path.
Model of Node `path.basename` for the slash-separated names used here. -/
def basenameChars (cs : List Char) : List Char :=
  cs.foldl (fun acc c => if c = '/' then [] else acc ++ [c]) []

/-- Extension of a basename following Node `path.extname` rules: the part
from the last dot to the end (dot included); empty when there is no dot or
when the only dot is the leading character of the basename. -/
def extnameChars (b : List Char) : List Char :=
  let rb := b.reverse
  let tail := rb.takeWhile (fun c => c ≠ '.')
  if tail.length = rb.length then []
  else if tail.length + 1 = rb.length then []
  else '.' :: tail.reverse

/-- Model of Node `path.extname`. -/
def extname (p : String) : String :=
  ⟨extnameChars (basenameChars p.toList)⟩

/-- Model of Node `path.basename` (on the slash-separated URLs used here). -/
def basename (p : String) : String :=
  ⟨basenameChars p.toList⟩

/-- Model of JS `toLowerCase` by per-character lowering (the extension
strings it is applied to are ASCII). -/
def toLowerCase (s : String) : String :=
  ⟨s.toList.map Char.toLower⟩

/-- `path.parse(p).name`: the basename with its extension removed. -/
def parseName (p : String) : String :=
  (basename p).dropRight (extname p).length

/-! ## Classifier (model of the `sharp(fileBuffer).metadata()` probe) -/

/-- Observable outcome of `sharp(fileBuffer).metadata()`: either the call
throws, or it yields a metadata object whose `format` field may be absent. -/
inductive DecodeResult where
  | failed : DecodeResult
  | decoded : Option String → DecodeResult
  deriving DecidableEq

/-- The fixed allow-list checked by the source:
`['jpeg', 'png', 'gif', 'webp'].includes(imageType)`. -/
def allowList : List String := ["jpeg", "png", "gif", "webp"]

/-- The classification step of `upload` (source lines 63-73): on a decode
failure the catch sets `isImage = false`; on success `imageType` is the
decoded format and `isImage` is its membership in the allow-list. Returns
the pair `(isImage, imageType)`. -/
def classify : DecodeResult → Bool × Option String
  | .failed => (false, none)
  | .decoded none => (false, none)
  | .decoded (some f) => (allowList.contains f, some f)

/-! ## Upload pipeline -/

/-- The file part of the multipart request as skipper hands it over:
payload length in bytes, the client-supplied original filename, and the
client-supplied MIME type (`.type`), each possibly absent. -/
structure UploadedFile where
  size : Nat
  filename : Option String
  type : Option String
  deriving DecidableEq

/-- `maxBytes` option passed to skipper's `upload` (source line 31). -/
def maxBytes : Nat := 1073741824

/-- One attachment entry of the FHIR DocumentReference. The
`creation` timestamp (`new Date().toISOString()`) is wall-clock dependent
and is not modelled. -/
structure Attachment where
  contentType : String
  url : String
  size : Option Nat
  title : String
  deriving DecidableEq

/-- The DocumentReference built by `upload` (source lines 119-178); the
constant `meta.profile` and `type.coding` blocks are not modelled.
`subject` and `author` hold the rendered reference strings when present. -/
structure DocumentReference where
  resourceType : String
  status : String
  docStatus : String
  content : List Attachment
  subject : Option String
  author : Option String
  deriving DecidableEq

/-- Outcome of the `axios.post` to the registry: either the request fails
without a response (or is otherwise rejected), or a response with the given
HTTP status arrives whose body may carry an `id`. Axios default semantics:
a received response resolves iff `200 ≤ status < 300`; otherwise the
promise rejects. -/
inductive PostResult where
  | network : PostResult
  | response : Nat → Option String → PostResult
  deriving DecidableEq

/-- The HTTP result the upload action sends back. `ok` carries the success
body fields relevant here: the stored filename, the byte size, the
thumbnail path when an image, and the `id` of the registry body that
was captured (absent when `fhirResponse` stayed `\x7b\x7d`). -/
inductive UploadResult where
  | badRequest : String → UploadResult
  | serverError : String → UploadResult
  | ok : String → Nat → Option String → Option String → UploadResult
  deriving DecidableEq

/-- Whether an `UploadResult` is the success (`res.ok`) response. -/
def UploadResult.isOk : UploadResult → Bool
  | .ok _ _ _ _ => true
  | _ => false

/-- The externalId carried by a success response, if any. -/
def UploadResult.fhirId : UploadResult → Option String
  | .ok _ _ _ i => i
  | _ => none

/-- Everything observable about one run of `upload`: the HTTP result, the
filenames written into the asset directory (in write order), whether the
classification step ran, whether the registry POST was attempted, and the
DocumentReference submitted to it. -/
structure UploadOutcome where
  result : UploadResult
  writes : List String
  classified : Bool
  registryCalled : Bool
  record : Option DocumentReference
  deriving DecidableEq

/-- JS truthiness of an optional string (`if (x)` / `x || y`): absent and
empty strings are falsy. -/
def truthy : Option String → Bool
  | none => false
  | some s => s ≠ ""

/-- The `upload` action (source lines 25-207) as a pure function of the
request and the environment oracles.

- `file`: the uploaded file part (`none` when `uploadedFiles.length === 0`);
- `patientId`, `practitionerId`: the body fields;
- `decode`: outcome of the `sharp` metadata probe;
- `post`: outcome of the registry `axios.post`;
- `uniqueId`: the hex string from `crypto.randomBytes(8)`;
- `apiBaseUrl`: `sails.config.custom.apiBaseUrl`.

Skipper aborts the receive with an error when the payload exceeds
`maxBytes`; that error rejects the promise and lands in the outer catch,
which answers `res.serverError` before anything else ran. Local `sharp`
file writes are modelled as always succeeding (storage failure is outside
every claim's hypotheses). -/
def upload (file : Option UploadedFile) (patientId practitionerId : Option String)
    (decode : DecodeResult) (post : PostResult)
    (uniqueId : String) (apiBaseUrl : String) : UploadOutcome :=
  match file with
  | none => ⟨.badRequest "E_NO_FILE", [], false, false, none⟩
  | some f =>
    if maxBytes < f.size then
      ⟨.serverError "upload", [], false, false, none⟩
    else if f.size = 0 then
      ⟨.badRequest "E_NO_FILE", [], false, false, none⟩
    else
      let fileSizeBytes := f.size
      let cls := classify decode
      let isImage := cls.1
      let filenameFull :=
        if isImage then uniqueId ++ "." ++ (cls.2.getD "")
        else uniqueId ++ toLowerCase (extname (f.filename.getD ""))
      let fileName := parseName filenameFull
      let fileExt := extname filenameFull
      let imageUrl := apiBaseUrl ++ "/images/" ++ filenameFull
      let thumbnailFilename := fileName ++ "_thumb" ++ fileExt
      let thumbnailUrl := apiBaseUrl ++ "/images/" ++ thumbnailFilename
      let writes := if isImage then [filenameFull, thumbnailFilename] else [filenameFull]
      let content :=
        if isImage then
          [⟨"image/" ++ (cls.2.getD ""), imageUrl, some fileSizeBytes, "full-image"⟩,
           ⟨"image/" ++ (cls.2.getD ""), thumbnailUrl, none, "thumbnail"⟩]
        else
          let mimeType := if truthy f.type then f.type.getD "" else "application/octet-stream"
          [⟨mimeType, imageUrl, some fileSizeBytes, "file"⟩]
      let doc : DocumentReference :=
        ⟨"DocumentReference", "current", "final", content,
         if truthy patientId then some ("Patient/" ++ patientId.getD "") else none,
         if truthy practitionerId then some ("Practitioner/" ++ practitionerId.getD "") else none⟩
      let result : UploadResult :=
        match post with
        | .network => .serverError "fhir"
        | .response status dataId =>
            if 200 ≤ status ∧ status < 300 then
              .ok filenameFull fileSizeBytes
                (if isImage then some ("/images/" ++ thumbnailFilename) else none)
                (if status = 201 then dataId else none)
            else .serverError "fhir"
      ⟨result, writes, true, true, some doc⟩

/-! ## Delete pipeline -/

/-- A ClinicalImpression as the delete cascade sees it: its `id` and its
`supportingInfo` list, each entry represented by its `reference` string.
`none` models an absent (or non-array) `supportingInfo` field, which the
source skips. -/
structure ClinicalImpression where
  id : String
  supportingInfo : Option (List String)
  deriving DecidableEq

/-- Outcome of the `axios.get` fetching the DocumentReference: a 2xx
response carrying the record, an HTTP error response with its status, or a
failure without a response. -/
inductive FetchResult where
  | ok : DocumentReference → FetchResult
  | httpError : Nat → FetchResult
  | network : FetchResult

/-- Environment oracles of one `delete` run: the DocumentReference fetch,
the ClinicalImpression query (`none` models a failed query or a body
without `entry`, both leaving `clinicalImpressions = []`), the per-id
outcome of each ClinicalImpression `axios.put`, and the outcome of the
registry `axios.delete`. -/
structure DeleteOracles where
  fetch : FetchResult
  query : Option (List ClinicalImpression)
  updateOk : String → Bool
  deleteOk : Bool

/-- The HTTP result the delete action sends back. -/
inductive DeleteResult where
  | badRequest : String → DeleteResult
  | notFound : String → DeleteResult
  | serverError : String → DeleteResult
  | ok : String → DeleteResult
  deriving DecidableEq

/-- Everything observable about one run of `delete`: the HTTP result, the
asset directory after the run, the registry-side state of the dependents
the query returned (after the cascade), whether any registry call beyond
the initial fetch was attempted, and whether the registry-side
DocumentReference was removed. -/
structure DeleteOutcome where
  result : DeleteResult
  fs : List String
  dependents : List ClinicalImpression
  postFetchRegistryCalls : Bool
  registryRecordDeleted : Bool

/-- The reference string the cascade filters out:
`` `DocumentReference/${id}` ``. -/
def refOf (id : String) : String := "DocumentReference/" ++ id

/-- Registry-side effect of the cascade (source lines 256-284) on one
ClinicalImpression: entries equal to `refOf id` are filtered out of
`supportingInfo`; the `axios.put` is attempted only when the filtered list
is shorter, and only a successful put changes the registry copy. -/
def cascadeStep (id : String) (updateOk : String → Bool)
    (ci : ClinicalImpression) : ClinicalImpression :=
  match ci.supportingInfo with
  | none => ci
  | some infos =>
      let updatedSupportingInfo := infos.filter (fun r => r ≠ refOf id)
      if updatedSupportingInfo.length ≠ infos.length then
        if updateOk ci.id then ⟨ci.id, some updatedSupportingInfo⟩ else ci
      else ci

/-- The `delete` action (source lines 215-318) as a pure function of the
request (`id` from `req.params`, `none` or empty modelling a falsy id),
the oracles and the current asset directory.

Local unlinking (source lines 295-303: for each attachment URL take
`path.basename`, test existence, unlink) is modelled as removal from the
filename list and as always succeeding, so the
file-deletion-error response branch is unreachable in the model. -/
def deleteOp (id : Option String) (o : DeleteOracles) (fs : List String) :
    DeleteOutcome :=
  if truthy id = false then
    ⟨.badRequest "E_INVALID_ID", fs, [], false, false⟩
  else
    let i := id.getD ""
    match o.fetch with
    | .httpError status =>
        if status = 404 then
          ⟨.notFound "找不到指定的 FHIR DocumentReference", fs, [], false, false⟩
        else
          ⟨.serverError "無法從 FHIR 伺服器取得 DocumentReference", fs, [], false, false⟩
    | .network =>
        ⟨.serverError "無法從 FHIR 伺服器取得 DocumentReference", fs, [], false, false⟩
    | .ok docRef =>
        let clinicalImpressions := o.query.getD []
        let dependents := clinicalImpressions.map (cascadeStep i o.updateOk)
        let names := docRef.content.map (fun a => basename a.url)
        let fs2 := fs.filter (fun f => ¬ names.contains f)
        ⟨.ok "檔案及對應的 FHIR DocumentReference 已成功刪除", fs2, dependents,
         true, o.deleteOk⟩

/-! ## Purge pipeline -/

/-- The HTTP result the purge action sends back. -/
inductive PurgeResult where
  | ok : String → PurgeResult
  | serverError : String → PurgeResult
  deriving DecidableEq

/-- Outcome of one `purge` run: the HTTP result and the asset directory
after the run. -/
structure PurgeOutcome where
  result : PurgeResult
  fs : List String
  deriving DecidableEq

/-- The `purge` action (source lines 326-345): list the asset directory and
unlink every entry other than `.gitkeep`. Unlinking is modelled as always
succeeding, so the catch branch is unreachable in the model. -/
def purge (fs : List String) : PurgeOutcome :=
  ⟨.ok "所有檔案已成功刪除", fs.filter (fun f => f = ".gitkeep")⟩

/-! ## Theorems -/

/-- C4: an upload whose payload is empty (no file part, or a zero-byte
file) answers `badRequest` with code `E_NO_FILE`, writes nothing to the
asset directory, never classifies, never contacts the registry and builds
no record. -/
theorem C4_empty_upload_no_file_error (file : Option UploadedFile)
    (patientId practitionerId : Option String) (decode : DecodeResult)
    (post : PostResult) (uid api : String)
    (h : file = none ∨ ∃ f, file = some f ∧ f.size = 0) :
    upload file patientId practitionerId decode post uid api
      = ⟨.badRequest "E_NO_FILE", [], false, false, none⟩ := by
  rcases h with h | ⟨f, hf, hsz⟩
  · subst h; rfl
  · subst hf
    simp [upload, hsz, maxBytes]

/-- Witness for C4 at a concrete empty upload. -/
theorem C4_empty_upload_no_file_error_witness :
    upload none none none .failed .network "deadbeef" "api"
      = ⟨.badRequest "E_NO_FILE", [], false, false, none⟩ :=
  C4_empty_upload_no_file_error none none none .failed .network "deadbeef" "api"
    (Or.inl rfl)

/-- C10: an upload whose payload exceeds 1073741824 bytes is rejected at
the receive step: the action answers `serverError` and no classification,
asset-directory write, registry call or record building takes place. -/
theorem C10_max_payload_size (f : UploadedFile)
    (patientId practitionerId : Option String) (decode : DecodeResult)
    (post : PostResult) (uid api : String)
    (h : 1073741824 < f.size) :
    upload (some f) patientId practitionerId decode post uid api
      = ⟨.serverError "upload", [], false, false, none⟩ := by
  simp [upload, maxBytes, h]

/-- Witness for C10 at a payload one byte over the limit. -/
theorem C10_max_payload_size_witness :
    upload (some ⟨1073741825, none, none⟩) none none .failed .network "deadbeef" "api"
      = ⟨.serverError "upload", [], false, false, none⟩ :=
  C10_max_payload_size ⟨1073741825, none, none⟩ none none .failed .network
    "deadbeef" "api" (by decide)

/-- C9: purge always succeeds, every surviving entry of the asset
directory is the reserved `.gitkeep` marker, and purging again right after
succeeds and changes nothing. -/
theorem C9_purge_idempotent (fs : List String) :
    (purge fs).result = .ok "所有檔案已成功刪除"
    ∧ (∀ f ∈ (purge fs).fs, f = ".gitkeep")
    ∧ purge ((purge fs).fs) = purge fs := by
  refine ⟨rfl, ?_, ?_⟩
  · intro f hf
    have := List.mem_filter.mp hf
    simpa using this.2
  · simp [purge, List.filter_filter]

/-- Witness for C9 at a concrete directory. -/
theorem C9_purge_idempotent_witness :
    ".gitkeep" = ".gitkeep"
    ∧ purge ((purge ["a.png", ".gitkeep"]).fs) = purge ["a.png", ".gitkeep"] :=
  ⟨(C9_purge_idempotent ["a.png", ".gitkeep"]).2.1 ".gitkeep" (by decide),
   (C9_purge_idempotent ["a.png", ".gitkeep"]).2.2⟩

/-- C6: classification reports an image exactly when the decode succeeded
and produced a format in the allow-list \x7bjpeg, png, gif, webp\x7d; any
reported format is drawn from the allow-list; a decode failure yields
`isImage = false` (the catch branch returns normally instead of
propagating the error). -/
theorem C6_classification (d : DecodeResult) :
    ((classify d).1 = true ↔ ∃ f, d = .decoded (some f) ∧ f ∈ allowList)
    ∧ ((classify d).1 = true → ∃ f ∈ allowList, (classify d).2 = some f)
    ∧ (classify .failed = (false, none)) := by
  refine ⟨?_, ?_, rfl⟩
  · cases d with
    | failed => simp [classify]
    | decoded o =>
        cases o with
        | none => simp [classify]
        | some g =>
            simp only [classify, List.elem_iff]
            constructor
            · intro hg
              exact ⟨g, rfl, hg⟩
            · rintro ⟨f, hf, hmem⟩
              obtain rfl : g = f := by simpa using hf
              exact hmem
  · intro h
    cases d with
    | failed => simp [classify] at h
    | decoded o =>
        cases o with
        | none => simp [classify] at h
        | some g =>
            refine ⟨g, ?_, rfl⟩
            simpa [classify, List.elem_iff] using h

/-- Witness for C6 at a concrete decodable png buffer. -/
theorem C6_classification_witness :
    (classify (.decoded (some "png"))).1 = true
    ∧ ∃ f ∈ allowList, (classify (.decoded (some "png"))).2 = some f :=
  ⟨(C6_classification (.decoded (some "png"))).1.mpr ⟨"png", rfl, by decide⟩,
   (C6_classification (.decoded (some "png"))).2.1 (by decide)⟩

/-- C5: when the DocumentReference fetch answers 404, delete fails with the
not-found response, the asset directory is untouched, and no registry call
beyond the fetch is made; any other fetch failure (an HTTP error with a
different status, or a failure without a response) instead yields the
transport-failure `serverError` response, likewise before any further
effect. -/
theorem C5_delete_fetch_failures (id : Option String) (hid : truthy id = true)
    (o : DeleteOracles) (fs : List String) :
    (o.fetch = .httpError 404 →
      deleteOp id o fs
        = ⟨.notFound "找不到指定的 FHIR DocumentReference", fs, [], false, false⟩)
    ∧ (∀ s, o.fetch = .httpError s → s ≠ 404 →
      deleteOp id o fs
        = ⟨.serverError "無法從 FHIR 伺服器取得 DocumentReference", fs, [], false, false⟩)
    ∧ (o.fetch = .network →
      deleteOp id o fs
        = ⟨.serverError "無法從 FHIR 伺服器取得 DocumentReference", fs, [], false, false⟩) := by
  obtain ⟨fetch, q, upd, delOk⟩ := o
  refine ⟨?_, ?_, ?_⟩
  · rintro rfl
    simp [deleteOp, hid]
  · rintro s rfl hs
    simp [deleteOp, hid, hs]
  · rintro rfl
    simp [deleteOp, hid]

/-- Witness for C5 at a concrete 404 fetch. -/
theorem C5_delete_fetch_failures_witness :
    deleteOp (some "doc1") ⟨.httpError 404, none, fun _ => true, true⟩ ["a.png"]
      = ⟨.notFound "找不到指定的 FHIR DocumentReference", ["a.png"], [], false, false⟩ :=
  (C5_delete_fetch_failures (some "doc1") (by decide)
    ⟨.httpError 404, none, fun _ => true, true⟩ ["a.png"]).1 rfl

/-- C3: when the DocumentReference fetch succeeds, delete answers the
success response and afterwards no local file named like any of the fetched
record's attachment URLs remains, whatever the outcome of the dependents
query, of each dependent update, and of the registry delete (in particular
when the registry delete fails, `deleteOk = false`). -/
theorem C3_local_cleanup_despite_registry_failure (i : String) (doc : DocumentReference)
    (q : Option (List ClinicalImpression)) (upd : String → Bool) (delOk : Bool)
    (fs : List String) (hi : i ≠ "") :
    ((deleteOp (some i) ⟨.ok doc, q, upd, delOk⟩ fs).result
        = .ok "檔案及對應的 FHIR DocumentReference 已成功刪除")
    ∧ ∀ a ∈ doc.content,
        basename a.url ∉ (deleteOp (some i) ⟨.ok doc, q, upd, delOk⟩ fs).fs := by
  have hid : truthy (some i) = true := by simpa [truthy] using hi
  constructor
  · simp [deleteOp, hid]
  · intro a ha hmem
    simp only [deleteOp, hid] at hmem
    rw [if_neg (by simp)] at hmem
    have h2 := (List.mem_filter.mp hmem).2
    simp only [decide_eq_true_eq] at h2
    exact h2 (by
      simpa using List.mem_map.mpr ⟨a, ha, rfl⟩)

/-- Witness for C3: registry delete fails, the local file is still gone. -/
theorem C3_local_cleanup_despite_registry_failure_witness :
    basename "https://b/images/aa.png"
      ∉ (deleteOp (some "doc1")
          ⟨.ok ⟨"DocumentReference", "current", "final",
                [⟨"image/png", "https://b/images/aa.png", some 4, "full-image"⟩],
                none, none⟩,
           none, fun _ => true, false⟩
          ["aa.png", "other.txt"]).fs :=
  (C3_local_cleanup_despite_registry_failure "doc1"
      ⟨"DocumentReference", "current", "final",
       [⟨"image/png", "https://b/images/aa.png", some 4, "full-image"⟩], none, none⟩
      none (fun _ => true) false ["aa.png", "other.txt"] (by decide)).2
    ⟨"image/png", "https://b/images/aa.png", some 4, "full-image"⟩ (by decide)

/-- C2 fails as stated: when the update pushed for a dependent is rejected
by the registry, the surviving registry-side dependent keeps the reference
to the deleted record. Concrete run: one ClinicalImpression referencing
`DocumentReference/doc1`, whose put fails; after the cascade its
`supportingInfo` still holds the reference. -/
theorem C2_counterexample :
    ∃ d ∈ (deleteOp (some "doc1")
        ⟨.ok ⟨"DocumentReference", "current", "final", [], none, none⟩,
         some [⟨"ci1", some ["DocumentReference/doc1"]⟩],
         fun _ => false, true⟩
        []).dependents,
      refOf "doc1" ∈ d.supportingInfo.getD [] := by decide

/-- A `cascadeStep` never changes the id of a dependent. -/
theorem cascadeStep_id (i : String) (upd : String → Bool)
    (ci : ClinicalImpression) : (cascadeStep i upd ci).id = ci.id := by
  obtain ⟨cid, si⟩ := ci
  cases si with
  | none => rfl
  | some infos =>
      simp only [cascadeStep]
      split
      · split <;> rfl
      · rfl

/-- After a `cascadeStep` whose put succeeds, the dependent holds no
reference to the deleted record. -/
theorem cascadeStep_removes (i : String) (upd : String → Bool)
    (ci : ClinicalImpression) (hupd : upd ci.id = true) :
    refOf i ∉ (cascadeStep i upd ci).supportingInfo.getD [] := by
  obtain ⟨cid, si⟩ := ci
  cases si with
  | none => simp [cascadeStep]
  | some infos =>
      simp only [cascadeStep]
      split
      case isTrue hlen =>
        simp only [Option.getD_some]
        intro hmem
        have h2 := (List.mem_filter.mp hmem).2
        simp at h2
      case isFalse hlen =>
        push_neg at hlen
        simp only [Option.getD_some]
        intro hmem
        have heq : infos.filter (fun r => decide (r ≠ refOf i)) = infos :=
          (List.filter_sublist infos).eq_of_length hlen
        have h2 := (List.mem_filter.mp (heq ▸ hmem)).2
        simp at h2

/-- C2 amended: after the cascade, every dependent returned by the registry
query whose update call succeeds (or whose reference list did not contain
the reference at all) ends with no reference to the deleted record; a
dependent whose update is rejected may keep the reference. -/
theorem C2_amended_cascade (i : String) (hi : i ≠ "") (doc : DocumentReference)
    (cis : List ClinicalImpression) (upd : String → Bool) (delOk : Bool)
    (fs : List String) (d : ClinicalImpression)
    (hd : d ∈ (deleteOp (some i) ⟨.ok doc, some cis, upd, delOk⟩ fs).dependents)
    (hupd : upd d.id = true) :
    refOf i ∉ d.supportingInfo.getD [] := by
  have hid : truthy (some i) = true := by simpa [truthy] using hi
  simp only [deleteOp, hid, Option.getD_some] at hd
  rw [if_neg (by simp)] at hd
  obtain ⟨ci, hci, hstep⟩ := List.mem_map.mp hd
  have hidci : upd ci.id = true := by
    rw [← cascadeStep_id i upd ci, hstep]; exact hupd
  rw [← hstep]
  exact cascadeStep_removes i upd ci hidci

/-- Witness for the amended C2: the single dependent's update succeeds and
its surviving registry copy no longer references the deleted record. -/
theorem C2_amended_cascade_witness :
    refOf "doc1"
      ∉ (ClinicalImpression.mk "ci1" (some [])).supportingInfo.getD [] :=
  C2_amended_cascade "doc1" (by decide)
    ⟨"DocumentReference", "current", "final", [], none, none⟩
    [⟨"ci1", some ["DocumentReference/doc1"]⟩] (fun _ => true) true []
    ⟨"ci1", some []⟩ (by decide) rfl

/-- C1 fails as stated: a registry response with status 200 — a response
that is not the creation-success status 201 — does not make the upload
fail; the action answers the success response (with no externalId in it),
because only statuses outside 200-299 reject the axios promise and reach
the error branch. -/
theorem C1_counterexample :
    ((upload (some ⟨5, some "a.txt", some "text/plain"⟩) none none
        .failed (.response 200 (some "xyz")) "deadbeef"
        "https://imagedb.fhir.tw").result.isOk = true)
    ∧ ((upload (some ⟨5, some "a.txt", some "text/plain"⟩) none none
        .failed (.response 200 (some "xyz")) "deadbeef"
        "https://imagedb.fhir.tw").result.fhirId = none) := by decide

/-- C1 amended: an upload whose registry creation call rejects — a failure
without a response, or a response whose status lies outside 200-299 — is
reported to the caller as failed (`serverError`), so no success response is
returned at all; but a response with a 2xx status other than 201 is
reported as a successful upload whose response carries no externalId. -/
theorem C1_amended_registration (f : UploadedFile)
    (patientId practitionerId : Option String) (decode : DecodeResult)
    (post : PostResult) (uid api : String)
    (hsz : f.size ≤ maxBytes) (hnz : f.size ≠ 0) :
    (post = .network →
      (upload (some f) patientId practitionerId decode post uid api).result
        = .serverError "fhir")
    ∧ (∀ status dataId, post = .response status dataId →
        ¬(200 ≤ status ∧ status < 300) →
        (upload (some f) patientId practitionerId decode post uid api).result
          = .serverError "fhir")
    ∧ (∀ status dataId, post = .response status dataId →
        200 ≤ status → status < 300 → status ≠ 201 →
        (upload (some f) patientId practitionerId decode post uid api).result.isOk
            = true
        ∧ (upload (some f) patientId practitionerId decode post uid api).result.fhirId
            = none) := by
  have hmax : ¬ (maxBytes < f.size) := not_lt.mpr hsz
  refine ⟨?_, ?_, ?_⟩
  · rintro rfl
    simp [upload, hmax, hnz]
  · rintro status dataId rfl h2xx
    simp [upload, hmax, hnz, h2xx]
  · rintro status dataId rfl h200 h300 hne
    refine ⟨?_, ?_⟩
    · simp [upload, hmax, hnz, h200, h300, UploadResult.isOk]
    · simp [upload, hmax, hnz, h200, h300, hne, UploadResult.fhirId]

/-- Witness for the amended C1 at a concrete rejected creation call. -/
theorem C1_amended_registration_witness :
    (upload (some ⟨5, some "a.txt", none⟩) none none .failed
      (.response 500 none) "deadbeef" "api").result = .serverError "fhir" :=
  (C1_amended_registration ⟨5, some "a.txt", none⟩ none none .failed
      (.response 500 none) "deadbeef" "api" (by decide) (by decide)).2.1
    500 none rfl (by decide)

/-- C7: in a successful upload, the DocumentReference submitted to the
registry holds, when the payload classified as an image of format `fmt`,
exactly the two attachments titled "full-image" then "thumbnail", both of
content type `image/fmt`; and otherwise exactly one attachment titled
"file" whose content type is the caller-supplied MIME type, or
`application/octet-stream` when none was supplied. -/
theorem C7_record_attachments (f : UploadedFile)
    (patientId practitionerId : Option String) (decode : DecodeResult)
    (post : PostResult) (uid api : String)
    (hok : (upload (some f) patientId practitionerId decode post uid api).result.isOk
        = true) :
    (∀ fmt, classify decode = (true, some fmt) →
      ((upload (some f) patientId practitionerId decode post uid api).record.map
          (fun d => d.content.map (fun a => (a.title, a.contentType))))
        = some [("full-image", "image/" ++ fmt), ("thumbnail", "image/" ++ fmt)])
    ∧ ((classify decode).1 = false → f.type ≠ some "" →
      ((upload (some f) patientId practitionerId decode post uid api).record.map
          (fun d => d.content.map (fun a => (a.title, a.contentType))))
        = some [("file", f.type.getD "application/octet-stream")]) := by
  by_cases hmax : maxBytes < f.size
  · exact absurd hok (by simp [upload, hmax, UploadResult.isOk])
  by_cases hnz : f.size = 0
  · exact absurd hok (by simp [upload, hmax, hnz, UploadResult.isOk])
  refine ⟨?_, ?_⟩
  · intro fmt hcls
    simp [upload, hmax, hnz, hcls]
  · intro hcls htype
    match htf : f.type with
    | none => simp [upload, hmax, hnz, hcls, truthy, htf]
    | some t =>
        have ht : t ≠ "" := fun h => htype (by rw [htf, h])
        simp [upload, hmax, hnz, hcls, truthy, htf, ht]

/-- Witness for C7 at a concrete successful png upload. -/
theorem C7_record_attachments_witness :
    ((upload (some ⟨4, some "x", none⟩) none none (.decoded (some "png"))
        (.response 201 (some "z")) "deadbeef" "b").record.map
      (fun d => d.content.map (fun a => (a.title, a.contentType))))
      = some [("full-image", "image/png"), ("thumbnail", "image/png")] :=
  (C7_record_attachments ⟨4, some "x", none⟩ none none (.decoded (some "png"))
      (.response 201 (some "z")) "deadbeef" "b" (by decide)).1 "png" (by decide)

/-- C8 fails as stated: for a non-image payload whose original filename has
no extension, the stored filename is the bare uniqueId with no trailing
dot: the source appends the raw `path.extname` result (which is empty
here) rather than `"." + extension`. Concrete run: original filename
`README`, uniqueId `deadbeef`; the single stored file is `deadbeef`, not
`deadbeef.`. -/
theorem C8_counterexample :
    ((upload (some ⟨3, some "README", none⟩) none none .failed
        (.response 201 (some "id1")) "deadbeef" "api").writes = ["deadbeef"])
    ∧ ("deadbeef" : String) ≠ "deadbeef" ++ "." ++ toLowerCase (extname "README") := by
  decide

/-- C8 amended: the stored filename is `uniqueId ++ "." ++ format` when the
payload classified as an image of that format, and otherwise
`uniqueId ++ ext` where `ext` is the lowercased `path.extname` of the
caller-supplied original filename — a string carrying its own leading dot,
empty (leaving the bare uniqueId, with no trailing dot) when the filename
has no extension. -/
theorem C8_amended_filename (f : UploadedFile)
    (patientId practitionerId : Option String) (decode : DecodeResult)
    (post : PostResult) (uid api : String)
    (hsz : f.size ≤ maxBytes) (hnz : f.size ≠ 0) :
    (∀ fmt, classify decode = (true, some fmt) →
      (upload (some f) patientId practitionerId decode post uid api).writes.head?
        = some (uid ++ "." ++ fmt))
    ∧ ((classify decode).1 = false →
      (upload (some f) patientId practitionerId decode post uid api).writes
        = [uid ++ toLowerCase (extname (f.filename.getD ""))]) := by
  have hmax : ¬ (maxBytes < f.size) := not_lt.mpr hsz
  refine ⟨?_, ?_⟩
  · intro fmt hcls
    simp [upload, hmax, hnz, hcls]
  · intro hcls
    simp [upload, hmax, hnz, hcls]

/-- Witness for the amended C8 at a concrete extensionless original
filename. -/
theorem C8_amended_filename_witness :
    (upload (some ⟨3, some "README", none⟩) none none .failed
      (.response 201 (some "id1")) "deadbeef" "api").writes
      = ["deadbeef" ++ toLowerCase (extname "README")] :=
  (C8_amended_filename ⟨3, some "README", none⟩ none none .failed
      (.response 201 (some "id1")) "deadbeef" "api" (by decide) (by decide)).2
    (by decide)

end ImageDB
